import Mathlib

/-!
# Verification of the GPT training loop (`src/train.py`)

A shallow embedding of the training orchestration script `train.py`.
Tensors, model parameters and gradients are abstracted to scalar
rationals (the numeric substrate — autograd kernels, AdamW internals —
is an opaque trusted collaborator per the design); everything about
control flow, counters, accumulation-window arithmetic, error raising
and event ordering is translated directly from the source.

Python integer `%` and float `/` raise `ZeroDivisionError` on a zero
divisor, so the corresponding operations are embedded fallibly with
an `Except` result.
-/

namespace GPTTrain

/-- Exceptions the embedded fragments of `train.py` can raise. -/
inductive PyError where
  | zeroDivisionError : PyError
  | valueError : String → PyError
deriving DecidableEq, Repr

/-- The hyperparameters consumed by the startup validation block
(`train.py` lines 39-85); fields keep the source argument names. -/
structure Args where
  batch_size : Int
  gradient_accumulation_steps : Int
  learning_rate : ℚ
  num_epochs : Int
  eval_epochs : Int
  checkpoint_epochs : Int
deriving DecidableEq, Repr

/-- Startup validation, `train.py` lines 61-85: each guard raises a
`ValueError` exactly as in the source.  Note the learning-rate guard is
`learning_rate < 0` in the source (line 69). -/
def validateArgs (a : Args) : Except PyError Unit :=
  if a.batch_size < 1 then
    Except.error (PyError.valueError "Batch size must be greater than 0.")
  else if a.gradient_accumulation_steps < 1 then
    Except.error (PyError.valueError "Gradient accumulation steps must be greater than 0.")
  else if a.learning_rate < 0 then
    Except.error (PyError.valueError "Learning rate must be a positive value.")
  else if a.num_epochs < 1 then
    Except.error (PyError.valueError "Must train for at least 1 epoch.")
  else if a.eval_epochs < 1 then
    Except.error (PyError.valueError "Eval epochs must be greater than 0.")
  else if a.checkpoint_epochs < 1 then
    Except.error (PyError.valueError "Checkpoint epochs must be greater than 0.")
  else Except.ok ()

/-- `train.py` line 99: the divisibility warning fires when the configured
accumulation steps do not divide evenly by the world size. -/
def ddpDivisibilityWarning (steps worldSize : Nat) : Bool :=
  steps % worldSize != 0

/-- `train.py` line 104: `args.gradient_accumulation_steps //= WORLD_SIZE`
(Python floor division on the positive configured value). -/
def ddpEffectiveAccumSteps (steps worldSize : Nat) : Nat :=
  steps / worldSize

/-- `train.py` line 95: in a distributed run the device string is set to
`cuda:LOCAL_RANK`. -/
def ddpDevice (localRank : Nat) : String :=
  "cuda:" ++ toString localRank

/-- The two dtypes the precision policy can select. -/
inductive DType where
  | bfloat16 : DType
  | float32 : DType
deriving DecidableEq, Repr

/-- `train.py` lines 109-113: bfloat16 is chosen only when the device
string is exactly `"cuda"` and bf16 is supported, else float32. -/
def selectDType (device : String) (bf16Supported : Bool) : DType :=
  if device == "cuda" && bf16Supported then DType.bfloat16 else DType.float32

/-- `train.py` lines 195-199: the `no_sync` context is entered when
`IS_DDP and step != args.gradient_accumulation_steps`. -/
def noSyncThisStep (isDDP : Bool) (step accumSteps : Nat) : Bool :=
  isDDP && (step != accumSteps)

/-- Cross-worker gradient synchronization is enabled for the backward
pass exactly when the `no_sync` context is not entered. -/
def syncThisStep (isDDP : Bool) (step accumSteps : Nat) : Bool :=
  !(noSyncThisStep isDDP step accumSteps)

/-- One training batch: the raw loss returned by the model forward pass
and the (abstracted, scalar) gradient its backward pass contributes. -/
structure Batch where
  loss : ℚ
  grad : ℚ
deriving DecidableEq, Repr

/-- The per-epoch transient state of the training loop, `train.py`
lines 181-214.  Besides the source's four accumulators
(`total_cross_entropy`, `total_gradient_norm`, `total_batches`,
`total_steps`) and the accumulated gradient, we record event logs:
the loss values passed to `backward`, and the 1-based batch indices at
which synchronization was enabled, the gradient norm was clipped, the
optimizer stepped, and the gradients were zeroed. -/
structure EpochState where
  totalCrossEntropy : ℚ
  totalGradientNorm : ℚ
  totalBatches : Nat
  totalSteps : Nat
  grad : ℚ
  backwardCalls : List ℚ
  syncAt : List Nat
  clipsAt : List Nat
  optStepsAt : List Nat
  zeroGradsAt : List Nat
deriving DecidableEq, Repr

/-- Line 181-182: all accumulators start at zero each epoch. -/
def initEpochState : EpochState :=
  ⟨0, 0, 0, 0, 0, [], [], [], [], []⟩

/-- One iteration of the training loop body, `train.py` lines 184-214,
at 1-based batch index `step`:

* line 193: `loss /= args.gradient_accumulation_steps` (tensor float
  division, which does not raise);
* lines 195-200: `loss.backward()` under `no_sync` unless
  `syncThisStep`; the backward contribution of the scaled loss is the
  raw gradient scaled by the same factor;
* line 202: `total_cross_entropy += loss.item()` adds the scaled loss;
* line 204: `step % args.gradient_accumulation_steps == 0` — Python
  integer modulo raises `ZeroDivisionError` when the divisor is 0;
* lines 205-212, on a window boundary: `clip_grad_norm_` (which returns
  the total pre-clip gradient norm), `optimizer.step()`,
  `optimizer.zero_grad(set_to_none=True)`, norm accumulation and step
  count increment;
* line 214: `total_batches += 1`. -/
def trainBatch (isDDP : Bool) (accumSteps step : Nat) (b : Batch)
    (s : EpochState) : Except PyError EpochState :=
  let scaledLoss := b.loss / (accumSteps : ℚ)
  let s1 : EpochState :=
    { s with
      grad := s.grad + b.grad / (accumSteps : ℚ)
      backwardCalls := s.backwardCalls ++ [scaledLoss]
      syncAt :=
        if syncThisStep isDDP step accumSteps then s.syncAt ++ [step] else s.syncAt
      totalCrossEntropy := s.totalCrossEntropy + scaledLoss }
  if accumSteps = 0 then Except.error PyError.zeroDivisionError
  else if step % accumSteps = 0 then
    Except.ok
      { s1 with
        clipsAt := s1.clipsAt ++ [step]
        optStepsAt := s1.optStepsAt ++ [step]
        zeroGradsAt := s1.zeroGradsAt ++ [step]
        totalGradientNorm := s1.totalGradientNorm + |s1.grad|
        grad := 0
        totalSteps := s1.totalSteps + 1
        totalBatches := s1.totalBatches + 1 }
  else Except.ok { s1 with totalBatches := s1.totalBatches + 1 }

/-- The batch loop of one epoch, `train.py` lines 184-214: process the
remaining batches, threading the 1-based index and the epoch state. -/
def runBatches (isDDP : Bool) (accumSteps : Nat) (bs : List Batch)
    (step : Nat) (s : EpochState) : Except PyError EpochState :=
  match bs with
  | [] => Except.ok s
  | b :: rest =>
    match trainBatch isDDP accumSteps step b s with
    | Except.error e => Except.error e
    | Except.ok s1 => runBatches isDDP accumSteps rest (step + 1) s1

/-- Epoch-end reporting, `train.py` lines 216-217: Python float division
raises `ZeroDivisionError` on a zero denominator; line 216 (loss over
batch count) runs before line 217 (norm over optimizer-step count). -/
def epochReport (s : EpochState) : Except PyError (ℚ × ℚ) :=
  if s.totalBatches = 0 then Except.error PyError.zeroDivisionError
  else if s.totalSteps = 0 then Except.error PyError.zeroDivisionError
  else
    Except.ok
      (s.totalCrossEntropy / (s.totalBatches : ℚ),
       s.totalGradientNorm / (s.totalSteps : ℚ))

/-- One full epoch: the batch loop from index 1 on fresh accumulators,
followed by the epoch-end report. -/
def runEpoch (isDDP : Bool) (accumSteps : Nat) (bs : List Batch) :
    Except PyError (ℚ × ℚ) :=
  match runBatches isDDP accumSteps bs 1 initEpochState with
  | Except.error e => Except.error e
  | Except.ok s => epochReport s

/-- Model modes toggled by `model.train()` / `model.eval()`. -/
inductive ModelMode where
  | trainMode : ModelMode
  | evalMode : ModelMode
deriving DecidableEq, Repr

/-- One held-out batch streamed through the evaluation pass
(tensors abstracted to scalars). -/
structure EvalBatch where
  x : ℚ
  y : ℚ
deriving DecidableEq, Repr

/-- A record of one forward pass: whether gradient tracking was enabled
around it and the autocast dtype of the context it ran under. -/
structure ForwardCall where
  gradEnabled : Bool
  dtype : DType
deriving DecidableEq, Repr

/-- The trainer-visible state the evaluation pass touches: the model
mode, the (opaque) optimizer state, and the perplexity metric's
accumulated updates.  The metric's `update`/`reset` semantics
(appending a batch; clearing the accumulated state) follow the
Evaluation Accumulator contract, the metric object itself being an
external collaborator. -/
structure TrainerState where
  modelMode : ModelMode
  optimizerState : ℚ
  metricUpdates : List EvalBatch
deriving DecidableEq, Repr

/-- The evaluation pass, `train.py` lines 225-244: `model.eval()`
(line 226); for each test batch a forward pass under `torch.no_grad()`
and the shared `forward_context`, then `perplexity_metric.update`
(lines 228-236); `compute` over everything accumulated (line 238);
`reset` (line 242); `model.train()` (line 244).  Returns the new state,
the log of forward calls, and the updates `compute` saw. -/
def evalPass (dtype : DType) (testBatches : List EvalBatch)
    (s : TrainerState) : TrainerState × List ForwardCall × List EvalBatch :=
  let s1 : TrainerState := { s with modelMode := ModelMode.evalMode }
  let calls := testBatches.map fun _ => ForwardCall.mk false dtype
  let s2 : TrainerState := { s1 with metricUpdates := s1.metricUpdates ++ testBatches }
  let computed := s2.metricUpdates
  let s3 : TrainerState :=
    { s2 with metricUpdates := [], modelMode := ModelMode.trainMode }
  (s3, calls, computed)

/-- The architecture arguments stored alongside the states in a
checkpoint (`model_args`, `train.py` lines 140-147). -/
structure ModelArgs where
  vocabulary_size : Nat
  block_size : Nat
  embedding_dimensions : Nat
  num_heads : Nat
  num_layers : Nat
deriving DecidableEq, Repr

/-- A serialized model state: a list of parameters, each a shape
(abstracted to a size) paired with its (abstracted) contents. -/
def ModelState : Type := List (Nat × ℚ)

instance : DecidableEq ModelState := by
  unfold ModelState
  infer_instance

/-- The error kinds checkpoint loading can fail with. -/
inductive CheckpointError where
  | checkpointNotFound : CheckpointError
  | stateShapeMismatch : CheckpointError
deriving DecidableEq, Repr

/-- The checkpoint record written at `train.py` lines 247-253: model
state, optimizer state and the architecture arguments, under one
durable record. -/
structure CheckpointRecord where
  model : ModelState
  optimizer : ℚ
  model_args : ModelArgs

/-- The live model as the orchestrator sees it: its construction
arguments and its current (opaque) parameter state. -/
structure LiveModel where
  args : ModelArgs
  state : ModelState

/-- Modelled from the spec: the Checkpoint Manager `load` operation
(`train.py` lines 160-166 call `torch.load` and `load_state_dict`,
whose failure behavior lives in the external torch library, so its
contract is taken from the spec): loading fails with a
`CheckpointNotFoundError` kind when the path is absent (the store holds
no record) and with a `StateShapeMismatchError` kind when the loaded
parameter shapes do not match the shapes implied by the live model's
construction arguments (`shapesOf`); otherwise the record is returned
intact. -/
def loadCheckpoint (shapesOf : ModelArgs → List Nat)
    (store : Option CheckpointRecord) (liveArgs : ModelArgs) :
    Except CheckpointError CheckpointRecord :=
  match store with
  | none => Except.error CheckpointError.checkpointNotFound
  | some ck =>
    if ck.model.map Prod.fst = shapesOf liveArgs then Except.ok ck
    else Except.error CheckpointError.stateShapeMismatch

/-- The resume path, `train.py` lines 160-166: load the checkpoint and
apply `model.load_state_dict(checkpoint["model"])` and
`optimizer.load_state_dict(checkpoint["optimizer"])` verbatim, before
any training happens. -/
def resumeFromCheckpoint (shapesOf : ModelArgs → List Nat)
    (store : Option CheckpointRecord) (m : LiveModel) (_freshOpt : ℚ) :
    Except CheckpointError (LiveModel × ℚ) :=
  match loadCheckpoint shapesOf store m.args with
  | Except.error e => Except.error e
  | Except.ok ck => Except.ok ({ m with state := ck.model }, ck.optimizer)

/-! ## Helper lemmas about the batch loop -/

/-- Field-level description of one loop iteration when the effective
accumulation step count is nonzero: the batch never raises, the batch
counter always increments, the optimizer-step bookkeeping fires exactly
on window boundaries, and the scaled loss is both passed to backward
and added to the running total. -/
theorem trainBatch_ok (isDDP : Bool) (a step : Nat) (b : Batch) (s : EpochState)
    (ha : a ≠ 0) :
    ∃ s1, trainBatch isDDP a step b s = Except.ok s1 ∧
      s1.totalSteps = s.totalSteps + (if step % a = 0 then 1 else 0) ∧
      s1.totalBatches = s.totalBatches + 1 ∧
      s1.optStepsAt = s.optStepsAt ++ (if step % a = 0 then [step] else []) ∧
      s1.clipsAt = s.clipsAt ++ (if step % a = 0 then [step] else []) ∧
      s1.zeroGradsAt = s.zeroGradsAt ++ (if step % a = 0 then [step] else []) ∧
      s1.backwardCalls = s.backwardCalls ++ [b.loss / (a : ℚ)] ∧
      s1.totalCrossEntropy = s.totalCrossEntropy + b.loss / (a : ℚ) := by
  by_cases hb : step % a = 0
  · refine ⟨⟨s.totalCrossEntropy + b.loss / (a : ℚ),
      s.totalGradientNorm + |s.grad + b.grad / (a : ℚ)|,
      s.totalBatches + 1, s.totalSteps + 1, 0,
      s.backwardCalls ++ [b.loss / (a : ℚ)],
      if syncThisStep isDDP step a then s.syncAt ++ [step] else s.syncAt,
      s.clipsAt ++ [step], s.optStepsAt ++ [step], s.zeroGradsAt ++ [step]⟩,
      ?_, ?_, ?_, ?_, ?_, ?_, ?_, ?_⟩ <;>
      simp [trainBatch, ha, hb]
  · refine ⟨⟨s.totalCrossEntropy + b.loss / (a : ℚ),
      s.totalGradientNorm,
      s.totalBatches + 1, s.totalSteps, s.grad + b.grad / (a : ℚ),
      s.backwardCalls ++ [b.loss / (a : ℚ)],
      if syncThisStep isDDP step a then s.syncAt ++ [step] else s.syncAt,
      s.clipsAt, s.optStepsAt, s.zeroGradsAt⟩,
      ?_, ?_, ?_, ?_, ?_, ?_, ?_, ?_⟩ <;>
      simp [trainBatch, ha, hb]

/-- Divisor bookkeeping for the step counter: absorbing one more batch
at 1-based index `m + 1` into the floor-division count. -/
theorem steps_div_arith (a m len S S1 Sf : Nat)
    (h1 : Sf + (m + 1) / a = S1 + (m + 1 + len) / a)
    (e1 : S1 = S + (if (m + 1) % a = 0 then 1 else 0)) :
    Sf + m / a = S + (m + (len + 1)) / a := by
  have hlen : m + (len + 1) = m + 1 + len := by omega
  rw [hlen]
  by_cases hdv : a ∣ m + 1
  · rw [Nat.succ_div_of_dvd hdv] at h1
    rw [if_pos (Nat.dvd_iff_mod_eq_zero.mp hdv)] at e1
    set P := m / a
    set Q := (m + 1 + len) / a
    omega
  · rw [Nat.succ_div_of_not_dvd hdv] at h1
    rw [if_neg fun h => hdv (Nat.dvd_iff_mod_eq_zero.mpr h)] at e1
    set P := m / a
    set Q := (m + 1 + len) / a
    omega

/-- The loop invariant of one epoch's batch loop, generalized over the
starting 1-based index `m + 1` and starting state: the loop never
raises when the accumulation step count is nonzero, the optimizer-step
count grows by the number of window boundaries passed, the batch count
by the number of batches, optimizer steps happen only at indices that
are multiples of the accumulation step count, clipping and gradient
zeroing coincide with optimizer steps, and the backward calls receive
exactly the scaled losses, whose sum is added to the loss total. -/
theorem runBatches_spec (isDDP : Bool) (a : Nat) (ha : a ≠ 0) :
    ∀ (bs : List Batch) (m : Nat) (s : EpochState),
    ∃ sf, runBatches isDDP a bs (m + 1) s = Except.ok sf ∧
      sf.totalSteps + m / a = s.totalSteps + (m + bs.length) / a ∧
      sf.totalBatches = s.totalBatches + bs.length ∧
      (∀ i ∈ sf.optStepsAt,
        i ∈ s.optStepsAt ∨ (i % a = 0 ∧ m + 1 ≤ i ∧ i ≤ m + bs.length)) ∧
      (s.clipsAt = s.optStepsAt → sf.clipsAt = sf.optStepsAt) ∧
      (s.zeroGradsAt = s.optStepsAt → sf.zeroGradsAt = sf.optStepsAt) ∧
      sf.backwardCalls = s.backwardCalls ++ bs.map (fun b => b.loss / (a : ℚ)) ∧
      sf.totalCrossEntropy =
        s.totalCrossEntropy + (bs.map (fun b => b.loss / (a : ℚ))).sum := by
  intro bs
  induction bs with
  | nil =>
    intro m s
    refine ⟨s, rfl, by simp, by simp, ?_, fun h => h, fun h => h, by simp, by simp⟩
    intro i hi
    exact Or.inl hi
  | cons b rest ih =>
    intro m s
    obtain ⟨s1, hstep, e1, e2, e3, e4, e5, e6, e7⟩ :=
      trainBatch_ok isDDP a (m + 1) b s ha
    obtain ⟨sf, hrun, h1, h2, h3, h4, h5, h6, h7⟩ := ih (m + 1) s1
    refine ⟨sf, ?_, ?_, ?_, ?_, ?_, ?_, ?_, ?_⟩
    · simp only [runBatches, hstep]
      exact hrun
    · simp only [List.length_cons]
      exact steps_div_arith a m rest.length s.totalSteps s1.totalSteps
        sf.totalSteps h1 e1
    · simp only [List.length_cons]
      omega
    · intro i hi
      rcases h3 i hi with hmem | ⟨hma, hlo, hhi⟩
      · rw [e3] at hmem
        rcases List.mem_append.mp hmem with hs | hnew
        · exact Or.inl hs
        · by_cases hb : (m + 1) % a = 0
          · rw [if_pos hb] at hnew
            simp only [List.mem_singleton] at hnew
            subst hnew
            refine Or.inr ⟨hb, Nat.le_refl _, ?_⟩
            simp only [List.length_cons]
            omega
          · rw [if_neg hb] at hnew
            simp at hnew
      · refine Or.inr ⟨hma, by omega, ?_⟩
        simp only [List.length_cons]
        omega
    · intro hcs
      apply h4
      rw [e4, e3, hcs]
    · intro hzs
      apply h5
      rw [e5, e3, hzs]
    · rw [h6, e6]
      simp [List.append_assoc]
    · rw [h7, e7]
      simp only [List.map_cons, List.sum_cons]
      ring

/-- `validateArgs` only succeeds when the configured gradient
accumulation step count is positive (the line-64 guard). -/
theorem validateArgs_accum_pos (cfg : Args)
    (hv : validateArgs cfg = Except.ok ()) :
    1 ≤ cfg.gradient_accumulation_steps := by
  unfold validateArgs at hv
  split at hv
  · cases hv
  · split at hv
    · cases hv
    · omega

/-! ## Claim theorems -/

/-- C1: the source condition `step != args.gradient_accumulation_steps`
(line 197) enables synchronization only at the first window boundary of
an epoch: at step 2 (with effective accumulation steps 2) sync is on,
but at step 4 — also a window boundary, since 4 % 2 = 0 — it is
suppressed, contradicting the claim that sync is enabled exactly at
multiples of the accumulation step count.  Running four batches shows
optimizer steps at indices 2 and 4 while only index 2 was synchronized. -/
theorem sync_suppressed_at_second_window_boundary :
    syncThisStep true 2 2 = true ∧
    syncThisStep true 4 2 = false ∧
    4 % 2 = 0 ∧
    (runBatches true 2 [⟨1, 1⟩, ⟨1, 1⟩, ⟨1, 1⟩, ⟨1, 1⟩] 1 initEpochState).map
        (fun s => (s.syncAt, s.optStepsAt)) =
      Except.ok ([2], [2, 4]) := by
  refine ⟨rfl, rfl, rfl, ?_⟩
  rfl

/-- C4: in a distributed run the device string is `cuda:LOCAL_RANK`
(line 95), which fails the `args.device == "cuda"` comparison of
line 111, so the precision policy falls back to float32 even when bf16
is supported — contradicting the claim that bf16 is selected whenever
the accelerator supports it.  Only the literal device string `"cuda"`
selects bf16. -/
theorem ddp_dtype_selection_falls_back_to_float32 :
    ddpDevice 0 = "cuda:0" ∧
    selectDType (ddpDevice 0) true = DType.float32 ∧
    selectDType "cuda" true = DType.bfloat16 ∧
    selectDType "cuda" false = DType.float32 := by
  refine ⟨rfl, rfl, rfl, rfl⟩

/-- C5: the effective per-process accumulation step count is the floor
division of the configured count by the world size (line 104), and the
divisibility warning (line 99) fires exactly when the configured count
is not a multiple of the world size; in particular 32 with world size 4
gives 8 without warning, and 10 with world size 4 warns and gives 2.
Both outcomes are ordinary values, not exceptions, so the run
continues. -/
theorem accumulation_divisibility_policy (steps worldSize : Nat) :
    ddpEffectiveAccumSteps steps worldSize = steps / worldSize ∧
    (ddpDivisibilityWarning steps worldSize = true ↔ ¬ worldSize ∣ steps) ∧
    ddpEffectiveAccumSteps 32 4 = 8 ∧
    ddpDivisibilityWarning 32 4 = false ∧
    ddpEffectiveAccumSteps 10 4 = 2 ∧
    ddpDivisibilityWarning 10 4 = true := by
  refine ⟨rfl, ?_, rfl, rfl, rfl, rfl⟩
  rw [ddpDivisibilityWarning, bne_iff_ne, Nat.dvd_iff_mod_eq_zero]

/-- C8: the learning-rate guard at line 69 is `args.learning_rate < 0`,
so a learning rate of exactly 0 passes startup validation, although the
claim (and the guard's own error message) requires a positive value;
a negative learning rate is rejected as expected. -/
theorem zero_learning_rate_passes_validation :
    validateArgs
      { batch_size := 4, gradient_accumulation_steps := 32,
        learning_rate := 0, num_epochs := 1000, eval_epochs := 10,
        checkpoint_epochs := 20 } = Except.ok () ∧
    validateArgs
      { batch_size := 4, gradient_accumulation_steps := 32,
        learning_rate := -1, num_epochs := 1000, eval_epochs := 10,
        checkpoint_epochs := 20 } =
      Except.error (PyError.valueError "Learning rate must be a positive value.") := by
  refine ⟨rfl, rfl⟩

/-- C2: over an epoch of `bs.length` batches with a positive effective
accumulation step count `a`, the loop completes with exactly
`bs.length / a` optimizer steps; the optimizer step, the gradient
clipping and the gradient zeroing all happen only at 1-based batch
indices that are multiples of `a` (and at the same indices as each
other); and the reported average gradient norm divides the accumulated
norm by the optimizer-step count (while the loss average divides by the
batch count). -/
theorem optimizer_steps_per_epoch (isDDP : Bool) (a : Nat) (bs : List Batch)
    (ha : 1 ≤ a) :
    ∃ sf, runBatches isDDP a bs 1 initEpochState = Except.ok sf ∧
      sf.totalSteps = bs.length / a ∧
      sf.totalBatches = bs.length ∧
      (∀ i ∈ sf.optStepsAt, i % a = 0 ∧ 1 ≤ i ∧ i ≤ bs.length) ∧
      sf.clipsAt = sf.optStepsAt ∧
      sf.zeroGradsAt = sf.optStepsAt ∧
      (0 < sf.totalSteps →
        epochReport sf =
          Except.ok (sf.totalCrossEntropy / (sf.totalBatches : ℚ),
            sf.totalGradientNorm / (sf.totalSteps : ℚ))) := by
  obtain ⟨sf, hrun, h1, h2, h3, h4, h5, h6, h7⟩ :=
    runBatches_spec isDDP a (by omega) bs 0 initEpochState
  simp only [initEpochState, Nat.zero_div, Nat.add_zero, Nat.zero_add] at h1 h2 h3
  refine ⟨sf, hrun, h1, h2, ?_, h4 rfl, h5 rfl, ?_⟩
  · intro i hi
    rcases h3 i hi with hmem | ⟨hma, hlo, hhi⟩
    · simp at hmem
    · exact ⟨hma, hlo, hhi⟩
  · intro hpos
    have hb0 : sf.totalBatches ≠ 0 := by
      intro h0
      rw [h2] at h0
      rw [h1, h0, Nat.zero_div] at hpos
      exact Nat.lt_irrefl 0 hpos
    have hs0 : sf.totalSteps ≠ 0 := Nat.pos_iff_ne_zero.mp hpos
    simp [epochReport, hb0, hs0]

/-- Witness for C2 at a concrete input: a single-process epoch of four
batches with accumulation steps 2. -/
theorem optimizer_steps_per_epoch_witness :
    1 ≤ 2 ∧
    ∃ sf, runBatches false 2 [⟨1, 1⟩, ⟨2, 1⟩, ⟨3, 1⟩, ⟨4, 1⟩] 1 initEpochState =
        Except.ok sf ∧
      sf.totalSteps = ([⟨1, 1⟩, ⟨2, 1⟩, ⟨3, 1⟩, ⟨4, 1⟩] : List Batch).length / 2 ∧
      sf.totalBatches = ([⟨1, 1⟩, ⟨2, 1⟩, ⟨3, 1⟩, ⟨4, 1⟩] : List Batch).length ∧
      (∀ i ∈ sf.optStepsAt,
        i % 2 = 0 ∧ 1 ≤ i ∧ i ≤ ([⟨1, 1⟩, ⟨2, 1⟩, ⟨3, 1⟩, ⟨4, 1⟩] : List Batch).length) ∧
      sf.clipsAt = sf.optStepsAt ∧
      sf.zeroGradsAt = sf.optStepsAt ∧
      (0 < sf.totalSteps →
        epochReport sf =
          Except.ok (sf.totalCrossEntropy / (sf.totalBatches : ℚ),
            sf.totalGradientNorm / (sf.totalSteps : ℚ))) :=
  ⟨by decide, optimizer_steps_per_epoch false 2 [⟨1, 1⟩, ⟨2, 1⟩, ⟨3, 1⟩, ⟨4, 1⟩] (by decide)⟩

/-- C3: every batch's loss is divided by the effective accumulation
step count before `backward` is invoked — the list of values passed to
`backward` over the epoch is exactly the scaled losses — and the
running loss total used for epoch reporting is the sum of those very
scaled values. -/
theorem loss_scaled_before_backward (isDDP : Bool) (a : Nat) (bs : List Batch)
    (ha : 1 ≤ a) :
    ∃ sf, runBatches isDDP a bs 1 initEpochState = Except.ok sf ∧
      sf.backwardCalls = bs.map (fun b => b.loss / (a : ℚ)) ∧
      sf.totalCrossEntropy = sf.backwardCalls.sum := by
  obtain ⟨sf, hrun, h1, h2, h3, h4, h5, h6, h7⟩ :=
    runBatches_spec isDDP a (by omega) bs 0 initEpochState
  have h6' : sf.backwardCalls = bs.map (fun b => b.loss / (a : ℚ)) := by
    simpa [initEpochState] using h6
  refine ⟨sf, hrun, h6', ?_⟩
  rw [h6']
  simpa [initEpochState] using h7

/-- Witness for C3 at a concrete input: accumulation steps 2 over two
batches with raw losses 1 and 3. -/
theorem loss_scaled_before_backward_witness :
    1 ≤ 2 ∧
    ∃ sf, runBatches false 2 [⟨1, 1⟩, ⟨3, 1⟩] 1 initEpochState = Except.ok sf ∧
      sf.backwardCalls =
        ([⟨1, 1⟩, ⟨3, 1⟩] : List Batch).map (fun b => b.loss / ((2 : Nat) : ℚ)) ∧
      sf.totalCrossEntropy = sf.backwardCalls.sum :=
  ⟨by decide, loss_scaled_before_backward false 2 [⟨1, 1⟩, ⟨3, 1⟩] (by decide)⟩

/-- C6: the evaluation pass leaves the optimizer state untouched, ends
with the model back in training mode (line 244), leaves the perplexity
accumulator reset (line 242), and every forward pass inside it runs
with gradient computation disabled (the `torch.no_grad()` context of
line 232). -/
theorem evaluation_is_frame_preserving (dtype : DType)
    (testBatches : List EvalBatch) (s : TrainerState) :
    (evalPass dtype testBatches s).1.optimizerState = s.optimizerState ∧
    (evalPass dtype testBatches s).1.modelMode = ModelMode.trainMode ∧
    (evalPass dtype testBatches s).1.metricUpdates = [] ∧
    ∀ c ∈ (evalPass dtype testBatches s).2.1, c.gradEnabled = false := by
  refine ⟨rfl, rfl, rfl, ?_⟩
  intro c hc
  simp only [evalPass, List.mem_map] at hc
  obtain ⟨x, hx, hcx⟩ := hc
  rw [← hcx]

/-- C7: checkpoint loading fails with the `CheckpointNotFoundError`
kind when the store is absent, fails with the `StateShapeMismatchError`
kind when the stored parameter shapes differ from the shapes implied by
the live model's construction arguments, and on success applies the
stored model state and optimizer state verbatim. -/
theorem checkpoint_resume_semantics (shapesOf : ModelArgs → List Nat)
    (store : Option CheckpointRecord) (m : LiveModel) (freshOpt : ℚ) :
    (store = none →
      resumeFromCheckpoint shapesOf store m freshOpt =
        Except.error CheckpointError.checkpointNotFound) ∧
    (∀ ck, store = some ck → ck.model.map Prod.fst ≠ shapesOf m.args →
      resumeFromCheckpoint shapesOf store m freshOpt =
        Except.error CheckpointError.stateShapeMismatch) ∧
    (∀ ck, store = some ck → ck.model.map Prod.fst = shapesOf m.args →
      resumeFromCheckpoint shapesOf store m freshOpt =
        Except.ok ({ m with state := ck.model }, ck.optimizer)) := by
  refine ⟨?_, ?_, ?_⟩
  · intro hnone
    subst hnone
    rfl
  · intro ck hsome hne
    subst hsome
    simp [resumeFromCheckpoint, loadCheckpoint, hne]
  · intro ck hsome heq
    subst hsome
    simp [resumeFromCheckpoint, loadCheckpoint, heq]

/-- Witness for C7: all three branches at concrete inputs — an absent
store, a store whose single parameter has shape 2 against an expected
shape 1, and a store whose shapes match. -/
theorem checkpoint_resume_semantics_witness :
    resumeFromCheckpoint (fun _ => [1]) none
        ⟨⟨50257, 1024, 768, 12, 12⟩, [(1, 0)]⟩ 0 =
      Except.error CheckpointError.checkpointNotFound ∧
    resumeFromCheckpoint (fun _ => [1]) (some ⟨[(2, 5)], 7, ⟨50257, 1024, 768, 12, 12⟩⟩)
        ⟨⟨50257, 1024, 768, 12, 12⟩, [(1, 0)]⟩ 0 =
      Except.error CheckpointError.stateShapeMismatch ∧
    resumeFromCheckpoint (fun _ => [1]) (some ⟨[(1, 5)], 7, ⟨50257, 1024, 768, 12, 12⟩⟩)
        ⟨⟨50257, 1024, 768, 12, 12⟩, [(1, 0)]⟩ 0 =
      Except.ok (⟨⟨50257, 1024, 768, 12, 12⟩, [(1, 5)]⟩, 7) :=
  ⟨(checkpoint_resume_semantics (fun _ => [1]) none
      ⟨⟨50257, 1024, 768, 12, 12⟩, [(1, 0)]⟩ 0).1 rfl,
   (checkpoint_resume_semantics (fun _ => [1])
      (some ⟨[(2, 5)], 7, ⟨50257, 1024, 768, 12, 12⟩⟩)
      ⟨⟨50257, 1024, 768, 12, 12⟩, [(1, 0)]⟩ 0).2.1 _ rfl (by decide),
   (checkpoint_resume_semantics (fun _ => [1])
      (some ⟨[(1, 5)], 7, ⟨50257, 1024, 768, 12, 12⟩⟩)
      ⟨⟨50257, 1024, 768, 12, 12⟩, [(1, 0)]⟩ 0).2.2 _ rfl (by decide)⟩

/-- C9: when the world size exceeds the configured accumulation step
count — which passed the startup positivity check — the floor division
of line 104 produces an effective count of 0, breaking the positivity
invariant, and the very first batch's window-boundary test
`step % args.gradient_accumulation_steps` (line 204) raises a
`ZeroDivisionError`. -/
theorem worldsize_exceeding_accum_zero_division (cfg : Args) (c ws : Nat)
    (b : Batch)
    (hc : cfg.gradient_accumulation_steps = (c : Int))
    (hv : validateArgs cfg = Except.ok ())
    (hlt : c < ws) :
    1 ≤ c ∧
    ddpEffectiveAccumSteps c ws = 0 ∧
    trainBatch true (ddpEffectiveAccumSteps c ws) 1 b initEpochState =
      Except.error PyError.zeroDivisionError := by
  have hpos : 1 ≤ (c : Int) := hc ▸ validateArgs_accum_pos cfg hv
  have h0 : ddpEffectiveAccumSteps c ws = 0 := Nat.div_eq_of_lt hlt
  refine ⟨by exact_mod_cast hpos, h0, ?_⟩
  rw [h0]
  rfl

/-- Witness for C9: configured accumulation steps 2 (which validates)
against world size 4. -/
theorem worldsize_exceeding_accum_zero_division_witness :
    ({ batch_size := 4, gradient_accumulation_steps := 2, learning_rate := 1,
       num_epochs := 1000, eval_epochs := 10,
       checkpoint_epochs := 20 } : Args).gradient_accumulation_steps =
      ((2 : Nat) : Int) ∧
    validateArgs
      { batch_size := 4, gradient_accumulation_steps := 2, learning_rate := 1,
        num_epochs := 1000, eval_epochs := 10, checkpoint_epochs := 20 } =
      Except.ok () ∧
    (2 : Nat) < 4 ∧
    (1 ≤ 2 ∧
      ddpEffectiveAccumSteps 2 4 = 0 ∧
      trainBatch true (ddpEffectiveAccumSteps 2 4) 1 ⟨1, 1⟩ initEpochState =
        Except.error PyError.zeroDivisionError) :=
  ⟨rfl, rfl, by decide,
   worldsize_exceeding_accum_zero_division
     { batch_size := 4, gradient_accumulation_steps := 2, learning_rate := 1,
       num_epochs := 1000, eval_epochs := 10, checkpoint_epochs := 20 }
     2 4 ⟨1, 1⟩ rfl rfl (by decide)⟩

/-- C10: an epoch whose batch count is positive but smaller than the
effective accumulation step count finishes its batch loop with an
optimizer-step count of 0, and the epoch-end report's division of the
gradient-norm total by that count raises a `ZeroDivisionError`; an
epoch with zero batches already raises at the division of the loss
total by the batch count. -/
theorem short_epoch_zero_division (isDDP : Bool) (a : Nat) (bs : List Batch)
    (ha : 1 ≤ a) (hlen : bs.length < a) :
    (0 < bs.length →
      ∃ sf, runBatches isDDP a bs 1 initEpochState = Except.ok sf ∧
        sf.totalSteps = 0 ∧
        0 < sf.totalBatches ∧
        epochReport sf = Except.error PyError.zeroDivisionError ∧
        runEpoch isDDP a bs = Except.error PyError.zeroDivisionError) ∧
    (bs.length = 0 →
      runEpoch isDDP a bs = Except.error PyError.zeroDivisionError) := by
  obtain ⟨sf, hrun, h1, h2, h3, h4, h5, h6, h7⟩ :=
    runBatches_spec isDDP a (by omega) bs 0 initEpochState
  simp only [initEpochState, Nat.zero_div, Nat.add_zero, Nat.zero_add] at h1 h2
  constructor
  · intro hposlen
    have hs0 : sf.totalSteps = 0 := by
      rw [h1, Nat.div_eq_of_lt hlen]
    have hb0 : sf.totalBatches ≠ 0 := by
      rw [h2]
      omega
    have hrep : epochReport sf = Except.error PyError.zeroDivisionError := by
      simp [epochReport, hb0, hs0]
    refine ⟨sf, hrun, hs0, by omega, hrep, ?_⟩
    simp only [runEpoch, hrun]
    exact hrep
  · intro hlen0
    have hbs : bs = [] := List.length_eq_zero.mp hlen0
    subst hbs
    rfl

/-- Witness for C10: a single-batch epoch under accumulation steps 2,
and the zero-batch case. -/
theorem short_epoch_zero_division_witness :
    1 ≤ 2 ∧
    ([⟨1, 1⟩] : List Batch).length < 2 ∧
    ((0 < ([⟨1, 1⟩] : List Batch).length →
      ∃ sf, runBatches false 2 [⟨1, 1⟩] 1 initEpochState = Except.ok sf ∧
        sf.totalSteps = 0 ∧
        0 < sf.totalBatches ∧
        epochReport sf = Except.error PyError.zeroDivisionError ∧
        runEpoch false 2 [⟨1, 1⟩] = Except.error PyError.zeroDivisionError) ∧
     (([⟨1, 1⟩] : List Batch).length = 0 →
      runEpoch false 2 [⟨1, 1⟩] = Except.error PyError.zeroDivisionError)) :=
  ⟨by decide, by decide, short_epoch_zero_division false 2 [⟨1, 1⟩] (by decide) (by decide)⟩

end GPTTrain
